import Mathlib

/-!
Shallow embedding of the port-visualization and state-reconciliation engine of
the `snmp-switch-manager` Lovelace card
(`src/www/community/switch-manager-card/switch-manager-card.js`).

The source file contains three successive variants of the card class.  We embed
the two that the specification's claims cite:

* variant B (lines 340-792): `setConfig` with `ports`/`entities` aliasing,
  grid/image layouts, and the modal dialog;
* variant C (lines 792-1113): the auto-discovery variant with the
  `_autoDiscoverPorts` routine, the discovery latch, and direct click-toggle.

JavaScript machine numbers are modelled by `JSNum` (NaN, infinities, or a
finite rational); the claims only ever coerce with `Number`, test
`Number.isFinite`, and compare, so no floating-point rounding is involved.
Attribute values read by the card are modelled by typed optional fields.
Static styling and pure text formatting (font sizes, css, kv rows) are
omitted; every datum that feeds a branch, a handler, or a service call is kept.
-/

namespace SwitchCard

instance {ε α : Type} [DecidableEq ε] [DecidableEq α] : DecidableEq (Except ε α)
  | .error a, .error b =>
    if h : a = b then .isTrue (by rw [h]) else .isFalse (by simp [h])
  | .error _, .ok _ => .isFalse (by simp)
  | .ok _, .error _ => .isFalse (by simp)
  | .ok a, .ok b =>
    if h : a = b then .isTrue (by rw [h]) else .isFalse (by simp [h])

/-- A JavaScript number as the card observes it: NaN, an infinity, or a
finite value (modelled as a rational, since the card never rounds). -/
inductive JSNum
  | nan
  | inf
  | neginf
  | fin (q : ℚ)
deriving DecidableEq, Repr

/-- JavaScript `Number.isFinite`. -/
def JSNum.isFinite : JSNum → Bool
  | .fin _ => true
  | _ => false

/-- The finite value of a `JSNum`, when there is one. -/
def JSNum.finVal : JSNum → Option ℚ
  | .fin q => some q
  | _ => none

/-- JavaScript `Number(x)` on a possibly-undefined numeric field:
`Number(undefined)` is NaN, and `Number` is the identity on numbers. -/
def jsNumber (o : Option JSNum) : JSNum := o.getD JSNum.nan

/-- `Number.isFinite` applied to a possibly-undefined numeric field without
coercion (as in `Number.isFinite(port.x)`): `undefined` is not finite. -/
def isFiniteOpt (o : Option JSNum) : Bool := (jsNumber o).isFinite

/-- Truthiness of a possibly-undefined string: `undefined` and `""` are falsy. -/
def strTruthy : Option String → Bool
  | none => false
  | some s => !s.isEmpty

/-- JavaScript `a || b` for a possibly-undefined string `a` and a string
default `b`. -/
def jsOr (a : Option String) (b : String) : String :=
  if strTruthy a then a.getD b else b

/-- JavaScript `a || b` where both sides are possibly undefined
(used for `admin_status || state`). -/
def jsOrOpt (a b : Option String) : Option String :=
  if strTruthy a then a else b

/-- JavaScript `x || null` on a string field: a falsy value becomes null. -/
def nullifyFalsy (o : Option String) : Option String :=
  if strTruthy o then o else none

/-- Rendering of a possibly-undefined string inside a template literal:
`undefined` prints as the text `undefined`. -/
def tmpl (o : Option String) : String := o.getD "undefined"

/-- JavaScript `toLowerCase`, modelled characterwise over the code points
(the core library's own lowercase map is opaque to the kernel). -/
def toLowerStr (s : String) : String := String.mk (s.data.map Char.toLower)

/-- JavaScript `toUpperCase`, modelled characterwise over the code points. -/
def toUpperStr (s : String) : String := String.mk (s.data.map Char.toUpper)

/-- The attribute keys the card reads from an entity state. -/
structure Attributes where
  friendly_name : Option String := none
  description : Option String := none
  port_id : Option String := none
  admin_status : Option String := none
  oper_status : Option String := none
  Name : Option String := none
  Index : Option JSNum := none
deriving DecidableEq, Repr

/-- An entity state pushed by the host: a primary state string plus
attributes. -/
structure EntityState where
  state : String
  attributes : Attributes
deriving DecidableEq, Repr

/-- The externally pushed state snapshot `hass.states`: an association from
entity identifiers to entity states. -/
abbrev Snapshot := List (String × EntityState)

/-- Property lookup `states[id]` on the snapshot object. -/
def lookupSnap : Snapshot → String → Option EntityState
  | [], _ => none
  | (k, v) :: rest, e => if k = e then some v else lookupSnap rest e

/-- A service invocation `callService(domain, service, payload)` whose payload
carries the entity id (and for `set_port_description` also a text). -/
structure ServiceCall where
  domain : String
  service : String
  entity_id : String
deriving DecidableEq, Repr

/-! Configuration input and normalization.  A raw configuration record as the
host hands it to `setConfig`; absent fields are `none`. -/

/-- One raw entry of the `ports`/`entities` array: a bare identifier string, a
structured object, or a null entry. -/
inductive RawEntry
  | str (s : String)
  | obj (entity : Option String) (x y : Option JSNum) (label : Option String)
  | null
deriving DecidableEq, Repr

/-- The raw configuration object passed to `setConfig`. -/
structure RawConfig where
  title : Option String := none
  image : Option String := none
  layout : Option String := none
  marker_size : Option JSNum := none
  ports : Option (List RawEntry) := none
  entities : Option (List RawEntry) := none
  device_id : Option String := none
  device_name : Option String := none
deriving DecidableEq, Repr

/-- JavaScript `config.ports ?? config.entities` (nullish coalescing). -/
def effPorts (raw : RawConfig) : Option (List RawEntry) :=
  raw.ports.or raw.entities

/-- A normalized port entry: `entity` always present, coordinates and label
as supplied.  Variant B's `Number()` coercion of non-null `x`/`y` is the
identity on our numeric model, so both variants normalize to this shape. -/
structure PortEntry where
  entity : String
  x : Option JSNum := none
  y : Option JSNum := none
  label : Option String := none
deriving DecidableEq, Repr

/-- Normalization of a single raw entry, shared by variants B and C: a string
becomes an entity-only entry; an object must carry a truthy `entity` property
or normalization throws; a null entry throws (variant C checks `!entry`
explicitly, variant B hits a TypeError reading `.entity` of null). -/
def normalizeEntry : RawEntry → Except String PortEntry
  | .str s => .ok { entity := s }
  | .null => .error "Each port entry must include an entity property."
  | .obj ent x y lab =>
    if strTruthy ent then .ok { entity := ent.getD "", x := x, y := y, label := lab }
    else .error "Each port entry must include an entity property."

/-- Whether a raw entry makes normalization throw. -/
def badEntry : RawEntry → Bool
  | .str _ => false
  | .null => true
  | .obj ent _ _ _ => !strTruthy ent

/-- `rawPorts.map(normalize)`: normalization of the whole list, throwing at the
first bad entry. -/
def normalizePorts : List RawEntry → Except String (List PortEntry)
  | [] => .ok []
  | e :: es =>
    match normalizeEntry e with
    | .error msg => .error msg
    | .ok p =>
      match normalizePorts es with
      | .error msg => .error msg
      | .ok ps => .ok (p :: ps)

/-- Whether every normalized port has finite numeric `x` and `y`
(`ports.every((p) => Number.isFinite(p.x) && Number.isFinite(p.y))`). -/
def allFinitePorts (ports : List PortEntry) : Bool :=
  ports.all fun p => isFiniteOpt p.x && isFiniteOpt p.y

/-- `marker_size` coercion with fallback: `Number(config.marker_size ?? 26)`,
falling back to 26 unless finite and positive. -/
def coerceMarkerSize (o : Option JSNum) : ℚ :=
  match o.getD (JSNum.fin 26) with
  | JSNum.fin q => if q ≤ 0 then 26 else q
  | _ => 26

/-- The canonical configuration produced by variant B's `setConfig`
(source lines 349-387). -/
structure ConfigB where
  title : Option String
  image : Option String
  layout : String
  marker_size : ℚ
  ports : List PortEntry
deriving DecidableEq, Repr

/-- Variant B `setConfig` (lines 349-387): throws when the `ports ?? entities`
array is missing, not an array, or empty; otherwise normalizes each entry,
coerces `marker_size`, and defaults `layout` to image exactly when every port
has finite coordinates. -/
def setConfigBAux (raw : RawConfig) : Option (List RawEntry) → Except String ConfigB
  | none => .error "You must provide a list of port switch entities."
  | some [] => .error "You must provide a list of port switch entities."
  | some (e :: es) =>
    match normalizePorts (e :: es) with
    | .error msg => .error msg
    | .ok ports =>
      .ok { title := raw.title
            image := raw.image
            layout := jsOr raw.layout (if allFinitePorts ports then "image" else "grid")
            marker_size := coerceMarkerSize raw.marker_size
            ports := ports }

def setConfigB (raw : RawConfig) : Except String ConfigB :=
  setConfigBAux raw (effPorts raw)

/-- The canonical configuration of variant C's `setConfig`
(source lines 802-850), which also records the device identity. -/
structure ConfigC where
  title : Option String
  image : Option String
  layout : String
  marker_size : JSNum
  ports : List PortEntry
  device_id : Option String
  device_name : Option String
deriving DecidableEq, Repr

/-- The instance fields of the variant C card that the discovery latch and
render path read: the normalized config, the latest snapshot, and the two
discovery flags. -/
structure CardC where
  config : Option ConfigC
  hass : Option Snapshot
  needsAuto : Bool
  autoStarted : Bool
deriving DecidableEq, Repr

/-- The card as the constructor leaves it. -/
def initCardC : CardC :=
  { config := none, hass := none, needsAuto := false, autoStarted := false }

/-- Variant C `setConfig` (lines 802-850).  A non-empty `ports ?? entities`
array is normalized (throwing on a bad entry) and discovery is disabled; an
empty or missing array is accepted with an empty port list and the discovery
flag set, regardless of whether a device identity is present. -/
def setConfigCAux (c : CardC) (raw : RawConfig) : Option (List RawEntry) → Except String CardC
  | some (e :: es) =>
    match normalizePorts (e :: es) with
    | .error msg => .error msg
    | .ok ports =>
      .ok { c with
            config := some
              { title := raw.title
                image := raw.image
                layout := jsOr raw.layout (if allFinitePorts ports then "image" else "grid")
                marker_size := JSNum.fin (coerceMarkerSize raw.marker_size)
                ports := ports
                device_id := raw.device_id
                device_name := raw.device_name }
            needsAuto := false
            autoStarted := false }
  | _ =>
    .ok { c with
          config := some
            { title := raw.title
              image := raw.image
              layout := jsOr raw.layout "grid"
              marker_size := jsNumber (some ((raw.marker_size).getD (JSNum.fin 26)))
              ports := []
              device_id := nullifyFalsy raw.device_id
              device_name := nullifyFalsy raw.device_name }
          needsAuto := true
          autoStarted := false }

def setConfigC (c : CardC) (raw : RawConfig) : Except String CardC :=
  setConfigCAux c raw (effPorts raw)

/-- Variant C `set hass` (lines 852-875): store the snapshot, and if the card
still needs discovery, has not started it, and holds no ports, set the
`_autoStarted` latch and launch the asynchronous discovery.  The boolean
result records whether a discovery was launched by this push. -/
def setHassC (c : CardC) (snap : Snapshot) : CardC × Bool :=
  let c1 : CardC := { c with hass := some snap }
  if c1.config.isSome && c1.needsAuto && !c1.autoStarted &&
      ((c1.config.map ConfigC.ports).getD []).isEmpty then
    ({ c1 with autoStarted := true }, true)
  else
    (c1, false)

/-- Completion callback of the discovery promise (lines 864-870): a non-empty
result list replaces the stored ports and clears the `_needsAuto` flag;
an empty result changes nothing. -/
def discoveryThen (c : CardC) (ids : List String) : CardC :=
  match ids with
  | [] => c
  | _ :: _ =>
    match c.config with
    | none => c
    | some cfg =>
      { c with
        config := some { cfg with ports := ids.map fun i => { entity := i } }
        needsAuto := false }

/-- An event delivered to the variant C card within one configuration
lifetime: a state push or the completion of an outstanding discovery. -/
inductive EventC
  | push (snap : Snapshot)
  | complete (ids : List String)

/-- One event step; the boolean records whether the step launched a
discovery. -/
def stepC (c : CardC) : EventC → CardC × Bool
  | .push s => setHassC c s
  | .complete ids => (discoveryThen c ids, false)

/-- Number of discovery launches over a sequence of events. -/
def runStarts (c : CardC) : List EventC → Nat
  | [] => 0
  | e :: es =>
    let r := stepC c e
    (if r.2 then 1 else 0) + runStarts r.1 es

/-! Discovery resolver (variant C, lines 883-930). -/

/-- A device registry row as returned by `config/device_registry/list`. -/
structure Device where
  id : String
  name : Option String := none
  name_by_user : Option String := none
deriving DecidableEq, Repr

/-- An entity registry row as returned by `config/entity_registry/list`. -/
structure RegEntry where
  entity_id : String
  device_id : Option String := none
  platform : String
  domain : String
deriving DecidableEq, Repr

/-- `_findDeviceIdByName` (lines 883-891): first device whose display name or
user-assigned name strictly equals the requested name. -/
def findDeviceIdByName (devices : List Device) (name : String) : Option String :=
  (devices.find? fun d => d.name == some name || d.name_by_user == some name).map Device.id

/-- A discovery candidate: an entity id joined with its snapshot state
(the elements of `withStates`). -/
structure Cand where
  id : String
  st : EntityState
deriving DecidableEq, Repr

/-- `Number(c.st.attributes?.Index)`: the numeric index attribute of a
candidate, NaN when absent. -/
def candIndex (c : Cand) : JSNum := jsNumber c.st.attributes.Index

/-- Sign of the numeric difference `ai - bi` used by the comparator. -/
def cmpNum (x y : ℚ) : Ordering :=
  if x < y then .lt else if y < x then .gt else .eq

/-- Lexicographic three-way comparison of character lists by code point. -/
def cmpCharList : List Char → List Char → Ordering
  | [], [] => .eq
  | [], _ :: _ => .lt
  | _ :: _, [] => .gt
  | a :: as, b :: bs =>
    if a < b then .lt else if b < a then .gt else cmpCharList as bs

/-- `a.id.localeCompare(b.id)`, modelled as lexicographic string comparison. -/
def cmpStr (x y : String) : Ordering := cmpCharList x.data y.data

/-- The two-tier discovery comparator (lines 922-927): ascending numeric
index when both sides have a finite one, else lexical entity-id order. -/
def discoveryCmp (a b : Cand) : Ordering :=
  match (candIndex a).finVal, (candIndex b).finVal with
  | some ai, some bi => cmpNum ai bi
  | _, _ => cmpStr a.id b.id

/-- The sort relation induced by the comparator: `a` may come before `b`
when the comparator does not return a positive value. -/
def sortLe (a b : Cand) : Prop := discoveryCmp a b ≠ Ordering.gt

instance : DecidableRel sortLe := fun a b => by unfold sortLe; infer_instance

/-- `filtered.sort(comparator)`: a stable comparison sort by the discovery
comparator. -/
def sortCands (l : List Cand) : List Cand := List.insertionSort sortLe l

/-- `_autoDiscoverPorts` (lines 893-930): resolve the device id (directly or
by name), select this integration's switch entities of that device, join with
the snapshot, drop the reserved CPU pseudo-port case-insensitively, and sort
with the two-tier comparator. -/
def autoDiscoverPorts (cfg : ConfigC) (devices : List Device) (reg : List RegEntry)
    (snap : Snapshot) : List String :=
  let d0 : Option String := nullifyFalsy cfg.device_id
  let d1 : Option String :=
    match d0 with
    | some s => some s
    | none =>
      match cfg.device_name with
      | some n => if n.isEmpty then none else findDeviceIdByName devices n
      | none => none
  match nullifyFalsy d1 with
  | none => []
  | some deviceId =>
    let ours := (reg.filter fun e =>
      e.device_id == some deviceId && e.platform == "snmp_switch_manager" &&
        e.domain == "switch").map RegEntry.entity_id
    let withStates := ours.filterMap fun i =>
      (lookupSnap snap i).map fun st => Cand.mk i st
    let filtered := withStates.filter fun c =>
      !(toUpperStr ((c.st.attributes.Name).getD "") == "CPU")
    (sortCands filtered).map Cand.id

/-! State reconcilers: the per-render join of configured ports with the
snapshot. -/

/-- A resolved port of variant B's render (lines 403-409): the configured
entry spread together with its live state object. -/
structure ResolvedB where
  entity : String
  x : Option JSNum
  y : Option JSNum
  label : Option String
  stateObj : EntityState
deriving DecidableEq, Repr

/-- Variant B reconciler (lines 403-409): look each configured port up in the
snapshot and keep only those with a truthy state object. -/
def resolveB (ports : List PortEntry) (snap : Snapshot) : List ResolvedB :=
  ports.filterMap fun p =>
    (lookupSnap snap p.entity).map fun st =>
      { entity := p.entity, x := p.x, y := p.y, label := p.label, stateObj := st }

/-- A resolved port of variant C's render (lines 941-953), with coordinates
coerced by `Number` (so missing coordinates become NaN). -/
structure ResolvedC where
  id : String
  st : EntityState
  x : JSNum
  y : JSNum
deriving DecidableEq, Repr

/-- Variant C reconciler (lines 941-953). -/
def resolveC (ports : List PortEntry) (snap : Snapshot) : List ResolvedC :=
  ports.filterMap fun p =>
    (lookupSnap snap p.entity).map fun st =>
      { id := p.entity, st := st, x := jsNumber p.x, y := jsNumber p.y }

/-! Status classification and click actions. -/

/-- The three-way port status of variant B. -/
inductive PortStatus
  | on
  | off
  | unknown
deriving DecidableEq, Repr

/-- Variant B classification (lines 603-610 and 647-654): the literal state
string decides the css class, case-sensitively. -/
def classifyB (s : String) : PortStatus :=
  if s = "on" then .on else if s = "off" then .off else .unknown

/-- Variant C classification (lines 998 and 1046):
`(state || "").toLowerCase() === "on"`.  On a present state string the
`|| ""` guard is the identity (it only replaces `""` by `""`). -/
def isOnC (s : String) : Bool := toLowerStr s == "on"

/-- What a click handler attached to a rendered port does when fired. -/
inductive ClickAction
  | openDialog (entity : String)
  | toggleEntity (entity : String)
deriving DecidableEq, Repr

/-- Variant C `_toggle` (lines 1093-1099): choose the service by a
case-insensitive comparison of the current state with `on`. -/
def toggleServiceC (snap : Snapshot) (e : String) : ServiceCall :=
  let isOn := toLowerStr (((lookupSnap snap e).map EntityState.state).getD "") == "on"
  { domain := "switch", service := if isOn then "turn_off" else "turn_on", entity_id := e }

/-- The service call a click action issues, if any: opening the dialog issues
none; variant C's direct toggle issues the toggle service call computed from
the snapshot at click time. -/
def clickServiceCall (snap : Snapshot) : ClickAction → Option ServiceCall
  | .openDialog _ => none
  | .toggleEntity e => some (toggleServiceC snap e)

/-- The dialog state after a click action fires (`_openDialog` sets
`_dialogEntity`; the direct toggle leaves it untouched). -/
def clickDialogAfter (d : Option String) : ClickAction → Option String
  | .openDialog e => some e
  | .toggleEntity _ => d

/-! Renderer, variant B (lines 569-691). -/

/-- An image-layout marker of variant B (lines 592-619). -/
structure MarkerB where
  entity : String
  x : JSNum
  y : JSNum
  titleText : String
  status : PortStatus
  labelText : String
  onClick : ClickAction
deriving DecidableEq, Repr

/-- A grid tile of variant B (lines 634-665). -/
structure TileB where
  entity : String
  nameText : String
  status : PortStatus
  descText : String
  onClick : ClickAction
deriving DecidableEq, Repr

/-- The body of variant B's rendered tree: the image overlay, the grid of
tiles (with an optional image banner), or the explicit empty-state message
("No port entities available."). -/
inductive RenderB
  | imageView (markers : List MarkerB)
  | gridView (hasImageBanner : Bool) (tiles : List TileB)
  | emptyView
deriving DecidableEq, Repr

/-- Marker construction for variant B's image layout. -/
def mkMarkerB (r : ResolvedB) : MarkerB :=
  { entity := r.entity
    x := jsNumber r.x
    y := jsNumber r.y
    titleText := jsOr r.stateObj.attributes.friendly_name r.entity
    status := classifyB r.stateObj.state
    labelText := (r.label.or r.stateObj.attributes.port_id).getD ""
    onClick := .openDialog r.entity }

/-- Tile construction for variant B's grid layout. -/
def mkTileB (r : ResolvedB) : TileB :=
  { entity := r.entity
    nameText :=
      if strTruthy r.label then r.label.getD ""
      else jsOr r.stateObj.attributes.friendly_name r.entity
    status := classifyB r.stateObj.state
    descText := (r.stateObj.attributes.description).getD ""
    onClick := .openDialog r.entity }

/-- Variant B `_render` body (lines 569-691): image layout when the layout is
image, an image is configured, and every resolved port has finite
coordinates; otherwise a grid when any port resolved; otherwise the
empty-state message. -/
def renderBodyB (cfg : ConfigB) (snap : Snapshot) : RenderB :=
  if cfg.layout == "image" && strTruthy cfg.image &&
      (resolveB cfg.ports snap).all (fun p => isFiniteOpt p.x && isFiniteOpt p.y) then
    .imageView ((resolveB cfg.ports snap).map mkMarkerB)
  else if !(resolveB cfg.ports snap).isEmpty then
    .gridView (strTruthy cfg.image) ((resolveB cfg.ports snap).map mkTileB)
  else
    .emptyView

/-- The dialog content of variant B's `_createDialog` (lines 693-752),
including the service call its toggle button issues when clicked. -/
structure DialogViewB where
  entity : String
  titleText : String
  statusText : String
  descriptionValue : String
  toggleLabel : String
  toggleCall : ServiceCall
deriving DecidableEq, Repr

/-- Variant B `_createDialog` (lines 693-752): every access to the possibly
missing state object is optional-chained, the title falls back to the bare
entity id, and the toggle button issues `switch.turn_on` exactly when the
current state is not the literal `on`. -/
def createDialogB (snap : Snapshot) (entityId : String) : DialogViewB :=
  let stateObj := lookupSnap snap entityId
  let stOpt : Option String := stateObj.map EntityState.state
  { entity := entityId
    titleText := jsOr (stateObj.bind fun s => s.attributes.friendly_name) entityId
    statusText :=
      "Admin: " ++ tmpl (jsOrOpt (stateObj.bind fun s => s.attributes.admin_status) stOpt) ++
        ", Oper: " ++ tmpl (jsOrOpt (stateObj.bind fun s => s.attributes.oper_status)
          (some "unknown"))
    descriptionValue := jsOr (stateObj.bind fun s => s.attributes.description) ""
    toggleLabel := if stOpt == some "on" then "Disable port" else "Enable port"
    toggleCall :=
      { domain := "switch"
        service := if stOpt == some "on" then "turn_off" else "turn_on"
        entity_id := entityId } }

/-- Variant B full render: the body plus the dialog overlay when the dialog
state is open for some entity. -/
def renderFullB (cfg : ConfigB) (snap : Snapshot) (dialog : Option String) :
    RenderB × Option DialogViewB :=
  (renderBodyB cfg snap, dialog.map (createDialogB snap))

/-! Renderer, variant C (lines 934-1086). -/

/-- An image-layout marker of variant C (lines 996-1005); its click handler
toggles the port directly.  The `idx+1` text label is presentation only and
is determined by the marker's position in the list. -/
structure MarkerC where
  entity : String
  x : JSNum
  y : JSNum
  isOn : Bool
  titleText : String
  onClick : ClickAction
deriving DecidableEq, Repr

/-- A grid port card of variant C (lines 1043-1065); its button toggles the
port directly. -/
structure PortCardC where
  entity : String
  nameText : String
  isOn : Bool
  buttonLabel : String
  onClick : ClickAction
deriving DecidableEq, Repr

/-- The body of variant C's rendered tree. -/
inductive RenderC
  | imageView (markers : List MarkerC)
  | emptyView
  | gridView (cards : List PortCardC)
deriving DecidableEq, Repr

/-- `_prettyName` (lines 1088-1091). -/
def prettyNameC (st : EntityState) (entityId : String) : String :=
  let n := (st.attributes.Name).getD ""
  if n.isEmpty then entityId else n

/-- Marker construction for variant C's image layout. -/
def mkMarkerC (r : ResolvedC) : MarkerC :=
  { entity := r.id
    x := r.x
    y := r.y
    isOn := isOnC r.st.state
    titleText := prettyNameC r.st r.id
    onClick := .toggleEntity r.id }

/-- Port card construction for variant C's grid layout. -/
def mkPortCardC (r : ResolvedC) : PortCardC :=
  { entity := r.id
    nameText := prettyNameC r.st r.id
    isOn := isOnC r.st.state
    buttonLabel := if isOnC r.st.state then "Turn Off" else "Turn On"
    onClick := .toggleEntity r.id }

/-- Variant C `_render` (lines 934-1086): image layout when the (re-guarded)
layout is image, an image is configured, and every resolved port has finite
coordinates; otherwise the explicit empty-state message ("No ports to display
yet") when nothing resolved; otherwise the grid of port cards. -/
def renderC (cfg : ConfigC) (snap : Snapshot) : RenderC :=
  if jsOr (some cfg.layout) "grid" == "image" && (nullifyFalsy cfg.image).isSome &&
      (resolveC cfg.ports snap).all (fun p => p.x.isFinite && p.y.isFinite) then
    .imageView ((resolveC cfg.ports snap).map mkMarkerC)
  else if (resolveC cfg.ports snap).isEmpty then
    .emptyView
  else
    .gridView ((resolveC cfg.ports snap).map mkPortCardC)

/-- Whether a variant C render shows the explicit empty-state message. -/
def hasEmptyMessageC : RenderC → Bool
  | .emptyView => true
  | _ => false

/-- The markers of a variant B render (empty for the other shapes). -/
def markersOfB : RenderB → List MarkerB
  | .imageView ms => ms
  | _ => []

/-- The grid tiles of a variant B render (empty for the other shapes). -/
def tilesOfB : RenderB → List TileB
  | .gridView _ ts => ts
  | _ => []

/-- The markers of a variant C render (empty for the other shapes). -/
def markersOfC : RenderC → List MarkerC
  | .imageView ms => ms
  | _ => []

/-- The port cards of a variant C render (empty for the other shapes). -/
def cardsOfC : RenderC → List PortCardC
  | .gridView cs => cs
  | _ => []

/-! Helper lemmas. -/

/-- Whether an exceptional computation threw. -/
def isErrE {α : Type} : Except String α → Bool
  | .error _ => true
  | .ok _ => false

theorem normalizeEntry_err (e : RawEntry) : isErrE (normalizeEntry e) = badEntry e := by
  cases e with
  | str s => rfl
  | null => rfl
  | obj ent x y lab =>
    cases h : strTruthy ent <;> simp [normalizeEntry, badEntry, h, isErrE]

theorem normalizePorts_err : ∀ l : List RawEntry,
    isErrE (normalizePorts l) = l.any badEntry := by
  intro l
  induction l with
  | nil => rfl
  | cons e es ih =>
    rw [List.any_cons, ← normalizeEntry_err e, ← ih]
    cases he : normalizeEntry e with
    | error msg => simp [normalizePorts, he, isErrE]
    | ok p =>
      cases hes : normalizePorts es with
      | error m => simp [normalizePorts, he, hes, isErrE]
      | ok ps => simp [normalizePorts, he, hes, isErrE]

theorem JSNum.isFinite_iff {n : JSNum} : n.isFinite = true ↔ ∃ q, n.finVal = some q := by
  cases n <;> simp [JSNum.isFinite, JSNum.finVal]

theorem cmpNum_ne_gt {x y : ℚ} : cmpNum x y ≠ Ordering.gt ↔ x ≤ y := by
  unfold cmpNum
  by_cases h : x < y
  · simp [h, le_of_lt h]
  · by_cases h2 : y < x
    · simp [h, h2, not_le.mpr h2]
    · simp [h, h2, le_of_not_lt h2]

theorem cmpCharList_eq_gt : ∀ as bs : List Char,
    cmpCharList as bs = Ordering.gt ↔ List.Lex (fun c d => c < d) bs as := by
  intro as
  induction as with
  | nil =>
    intro bs
    cases bs with
    | nil => simp [cmpCharList]
    | cons b bs => simp [cmpCharList]
  | cons a as ih =>
    intro bs
    cases bs with
    | nil =>
      simp only [cmpCharList]
      exact ⟨fun _ => List.Lex.nil, fun _ => trivial⟩
    | cons b bs =>
      simp only [cmpCharList]
      by_cases h1 : a < b
      · rw [if_pos h1]
        constructor
        · intro h
          cases h
        · intro hlex
          cases hlex with
          | cons h => exact absurd h1 (lt_irrefl _)
          | rel h => exact absurd h1 (asymm h)
      · rw [if_neg h1]
        by_cases h2 : b < a
        · rw [if_pos h2]
          exact ⟨fun _ => List.Lex.rel h2, fun _ => rfl⟩
        · rw [if_neg h2]
          have heq : b = a := le_antisymm (not_lt.mp h1) (not_lt.mp h2)
          subst heq
          rw [List.Lex.cons_iff]
          exact ih bs

theorem cmpStr_ne_gt {x y : String} : cmpStr x y ≠ Ordering.gt ↔ x ≤ y := by
  have h1 : cmpStr x y = Ordering.gt ↔ y < x := by
    rw [String.lt_iff_toList_lt]
    exact cmpCharList_eq_gt x.data y.data
  rw [← not_lt]
  exact not_congr h1

theorem sortLe_iff_num {a b : Cand} {qa qb : ℚ} (ha : (candIndex a).finVal = some qa)
    (hb : (candIndex b).finVal = some qb) : sortLe a b ↔ qa ≤ qb := by
  unfold sortLe discoveryCmp
  rw [ha, hb]
  exact cmpNum_ne_gt

theorem sortLe_iff_str {a b : Cand}
    (h : (candIndex a).finVal = none ∨ (candIndex b).finVal = none) :
    sortLe a b ↔ a.id ≤ b.id := by
  unfold sortLe discoveryCmp
  rcases h with h | h
  · rw [h]
    exact cmpStr_ne_gt
  · rw [h]
    cases (candIndex a).finVal <;> exact cmpStr_ne_gt

/-- Inserting into a list sorted by a key stays sorted by that key, provided
the insertion relation agrees with the key on all elements involved. -/
theorem sorted_orderedInsert_key {α β : Type} [LinearOrder β]
    (r : α → α → Prop) [DecidableRel r] (f : α → β) (a : α) :
    ∀ l : List α, (∀ b ∈ l, (r a b ↔ f a ≤ f b)) →
      List.Sorted (fun x y => f x ≤ f y) l →
      List.Sorted (fun x y => f x ≤ f y) (List.orderedInsert r a l) := by
  intro l
  induction l with
  | nil =>
    intro _ _
    simp
  | cons b t ih =>
    intro hc hs
    rw [List.orderedInsert]
    rcases List.sorted_cons.mp hs with ⟨hbt, hst⟩
    by_cases hab : r a b
    · rw [if_pos hab]
      have hfab : f a ≤ f b := (hc b (List.mem_cons_self b t)).mp hab
      refine List.sorted_cons.mpr ⟨?_, hs⟩
      intro y hy
      rcases List.mem_cons.mp hy with rfl | hyt
      · exact hfab
      · exact le_trans hfab (hbt y hyt)
    · rw [if_neg hab]
      have hfba : f b ≤ f a := by
        by_contra hlt
        exact hab ((hc b (List.mem_cons_self b t)).mpr (le_of_not_le hlt))
      refine List.sorted_cons.mpr
        ⟨?_, ih (fun x hx => hc x (List.mem_cons_of_mem b hx)) hst⟩
      intro y hy
      rcases (List.mem_orderedInsert r).mp hy with rfl | hyt
      · exact hfba
      · exact hbt y hyt

/-- Insertion sort by a relation that agrees with a key on the sorted list
produces a list sorted by that key. -/
theorem sorted_insertionSort_key {α β : Type} [LinearOrder β]
    (r : α → α → Prop) [DecidableRel r] (f : α → β) :
    ∀ l : List α, (∀ a ∈ l, ∀ b ∈ l, (r a b ↔ f a ≤ f b)) →
      List.Sorted (fun x y => f x ≤ f y) (List.insertionSort r l) := by
  intro l
  induction l with
  | nil =>
    intro _
    simp
  | cons a t ih =>
    intro h
    rw [List.insertionSort]
    refine sorted_orderedInsert_key r f a (List.insertionSort r t) ?_
      (ih fun x hx y hy =>
        h x (List.mem_cons_of_mem a hx) y (List.mem_cons_of_mem a hy))
    intro b hb
    have hbt : b ∈ t := (List.mem_insertionSort r).mp hb
    exact h a (List.mem_cons_self a t) b (List.mem_cons_of_mem a hbt)

/-- The ids of a filterMap-style reconciler are exactly the ids of the config
entries found in the snapshot, in order. -/
theorem reconcile_ids {α : Type} (mk : PortEntry → EntityState → α) (idOf : α → String)
    (hid : ∀ p st, idOf (mk p st) = p.entity) (snap : Snapshot) :
    ∀ ports : List PortEntry,
      ((ports.filterMap fun p => (lookupSnap snap p.entity).map (mk p)).map idOf)
        = (ports.filter fun p => (lookupSnap snap p.entity).isSome).map PortEntry.entity := by
  intro ports
  induction ports with
  | nil => rfl
  | cons p ps ih =>
    cases h : lookupSnap snap p.entity with
    | none => simpa [List.filterMap_cons, h, List.filter_cons] using ih
    | some st => simpa [List.filterMap_cons, h, List.filter_cons, hid] using ih

/-- Every output of a filterMap-style reconciler carries the state the
snapshot holds for its id. -/
theorem reconcile_state {α : Type} (mk : PortEntry → EntityState → α) (idOf : α → String)
    (stOf : α → EntityState) (hid : ∀ p st, idOf (mk p st) = p.entity)
    (hst : ∀ p st, stOf (mk p st) = st) (snap : Snapshot) (ports : List PortEntry) :
    ∀ r ∈ ports.filterMap fun p => (lookupSnap snap p.entity).map (mk p),
      lookupSnap snap (idOf r) = some (stOf r) := by
  intro r hr
  rcases List.mem_filterMap.mp hr with ⟨p, hp, hmap⟩
  rcases Option.map_eq_some'.mp hmap with ⟨st, hlook, rfl⟩
  rw [hid, hst]
  exact hlook

/-- A card whose discovery latch is set never launches another discovery. -/
theorem runStarts_of_started : ∀ (evs : List EventC) (c : CardC),
    c.autoStarted = true → runStarts c evs = 0 := by
  intro evs
  induction evs with
  | nil => intro c _; rfl
  | cons e es ih =>
    intro c hc
    cases e with
    | push s =>
      have hcond : (({ c with hass := some s } : CardC).config.isSome &&
          ({ c with hass := some s } : CardC).needsAuto &&
          !({ c with hass := some s } : CardC).autoStarted &&
          ((({ c with hass := some s } : CardC).config.map ConfigC.ports).getD []).isEmpty)
            = false := by
        simp [hc]
      simp only [runStarts, stepC, setHassC, hcond, if_false, Bool.false_eq_true]
      simpa using ih _ (by simpa using hc)
    | complete ids =>
      simp only [runStarts, stepC]
      have : (discoveryThen c ids).autoStarted = true := by
        unfold discoveryThen
        cases ids with
        | nil => exact hc
        | cons i is =>
          cases c.config <;> simpa using hc
      simpa using ih _ this

/-- Over any event sequence, a variant C card launches discovery at most
once: the synchronous latch assignment precedes the asynchronous launch. -/
theorem runStarts_le_one : ∀ (evs : List EventC) (c : CardC), runStarts c evs ≤ 1 := by
  intro evs
  induction evs with
  | nil => intro c; exact Nat.zero_le 1
  | cons e es ih =>
    intro c
    cases hstep : stepC c e with
    | mk c2 started =>
      cases started with
      | false =>
        calc runStarts c (e :: es)
            = (if false then 1 else 0) + runStarts c2 es := by
              simp only [runStarts, hstep]
          _ ≤ 1 := by simpa using ih c2
      | true =>
        have h2 : c2.autoStarted = true := by
          cases e with
          | push s =>
            simp only [stepC, setHassC] at hstep
            by_cases hcond : (({ c with hass := some s } : CardC).config.isSome &&
                ({ c with hass := some s } : CardC).needsAuto &&
                !({ c with hass := some s } : CardC).autoStarted &&
                ((({ c with hass := some s } : CardC).config.map ConfigC.ports).getD
                  []).isEmpty) = true
            · rw [if_pos hcond] at hstep
              cases hstep
              rfl
            · rw [if_neg (by simpa using hcond)] at hstep
              cases hstep
          | complete ids =>
            simp only [stepC] at hstep
            cases hstep
        calc runStarts c (e :: es)
            = (if true then 1 else 0) + runStarts c2 es := by
              simp only [runStarts, hstep]
          _ = 1 + runStarts c2 es := rfl
          _ = 1 := by rw [runStarts_of_started es c2 h2]
          _ ≤ 1 := le_refl 1

/-! Claim theorems. -/

/-- Claim C1, counterexample: the auto-discovery variant's `setConfig`
accepts the empty configuration — whose ports array is missing and which
carries neither a `device_id` nor a `device_name` — instead of throwing a
configuration error: it stores an empty port list and sets the discovery
flag. -/
theorem setConfigC_accepts_empty_config :
    isErrE (setConfigC initCardC {}) = false ∧
      setConfigC initCardC {} = Except.ok
        { config := some
            { title := none, image := none, layout := "grid",
              marker_size := JSNum.fin 26, ports := [],
              device_id := none, device_name := none }
          hass := none, needsAuto := true, autoStarted := false } := by
  constructor
  · rfl
  · decide

/-- Claim C1, amended: variant C's `setConfig` throws exactly when the
effective ports array is present, non-empty, and holds a bad entry (a null
entry or an object without a truthy entity); an empty or missing ports array
is always accepted — regardless of device identity — with an empty stored
port list and the discovery flag set.  Variant B's `setConfig` throws exactly
when the effective ports array is missing or empty or holds a bad entry. -/
theorem setConfig_error_characterization :
    ∀ (c : CardC) (raw : RawConfig),
      (isErrE (setConfigC c raw) = true ↔
        ∃ l, effPorts raw = some l ∧ l ≠ [] ∧ l.any badEntry = true)
      ∧ ((effPorts raw = none ∨ effPorts raw = some []) →
          ∃ c2, setConfigC c raw = Except.ok c2 ∧ c2.needsAuto = true ∧
            c2.config.map ConfigC.ports = some [])
      ∧ (isErrE (setConfigB raw) = true ↔
          (effPorts raw = none ∨ effPorts raw = some [] ∨
            ((effPorts raw).getD []).any badEntry = true)) := by
  intro c raw
  cases heff : effPorts raw with
  | none =>
    refine ⟨?_, ?_, ?_⟩
    · unfold setConfigC
      rw [heff]
      constructor
      · intro h
        cases h
      · rintro ⟨l, hl, _⟩
        cases hl
    · intro _
      unfold setConfigC
      rw [heff]
      exact ⟨_, rfl, rfl, rfl⟩
    · unfold setConfigB
      rw [heff]
      simp [isErrE, setConfigBAux]
  | some l =>
    cases l with
    | nil =>
      refine ⟨?_, ?_, ?_⟩
      · unfold setConfigC
        rw [heff]
        constructor
        · intro h
          cases h
        · rintro ⟨l, hl, hne, _⟩
          cases hl
          exact absurd rfl hne
      · intro _
        unfold setConfigC
        rw [heff]
        exact ⟨_, rfl, rfl, rfl⟩
      · unfold setConfigB
        rw [heff]
        simp [isErrE, setConfigBAux]
    | cons e es =>
      have hn := normalizePorts_err (e :: es)
      refine ⟨?_, ?_, ?_⟩
      · unfold setConfigC
        rw [heff]
        simp only [setConfigCAux]
        cases hne : normalizePorts (e :: es) with
        | error msg =>
          rw [hne] at hn
          constructor
          · intro _
            exact ⟨e :: es, rfl, by simp, hn.symm⟩
          · intro _
            rfl
        | ok ps =>
          rw [hne] at hn
          constructor
          · intro h
            cases h
          · rintro ⟨l, hl, _, hbad⟩
            cases hl
            rw [← hn] at hbad
            cases hbad
      · rintro (h | h) <;> simp at h
      · unfold setConfigB
        rw [heff]
        simp only [setConfigBAux, Option.getD_some]
        cases hne : normalizePorts (e :: es) with
        | error msg =>
          rw [hne] at hn
          constructor
          · intro _
            exact Or.inr (Or.inr hn.symm)
          · intro _
            rfl
        | ok ps =>
          rw [hne] at hn
          constructor
          · intro h
            cases h
          · rintro (h | h | h)
            · cases h
            · simp at h
            · rw [← hn] at h
              cases h

/-- Claim C1, witness: a configuration with only a device name and no ports
is accepted by variant C with the discovery flag set. -/
theorem setConfig_error_characterization_witness :
    ∃ c2, setConfigC initCardC { device_name := some "SW1" } = Except.ok c2 ∧
      c2.needsAuto = true ∧ c2.config.map ConfigC.ports = some [] :=
  (setConfig_error_characterization initCardC { device_name := some "SW1" }).2.1
    (Or.inl rfl)

/-- Claim C8: within one configuration lifetime established by a successful
`setConfig`, any sequence of state pushes (and discovery completions) starts
the asynchronous discovery at most once — the `_autoStarted` latch is set
synchronously before the launch and never cleared by a push. -/
theorem discovery_at_most_once :
    ∀ (c0 : CardC) (raw : RawConfig) (c1 : CardC),
      setConfigC c0 raw = Except.ok c1 →
      ∀ evs : List EventC, runStarts c1 evs ≤ 1 := by
  intro c0 raw c1 _ evs
  exact runStarts_le_one evs c1

/-- Claim C8, witness: after configuring discovery by device name, three
successive state pushes launch exactly one discovery. -/
theorem discovery_at_most_once_witness :
    runStarts
      { config := some
          { title := none, image := none, layout := "grid",
            marker_size := JSNum.fin 26, ports := [],
            device_id := none, device_name := some "SW1" }
        hass := none, needsAuto := true, autoStarted := false }
      [EventC.push [], EventC.push [], EventC.push []] ≤ 1 :=
  discovery_at_most_once initCardC { device_name := some "SW1" }
    { config := some
        { title := none, image := none, layout := "grid",
          marker_size := JSNum.fin 26, ports := [],
          device_id := none, device_name := some "SW1" }
      hass := none, needsAuto := true, autoStarted := false }
    (by decide)
    [EventC.push [], EventC.push [], EventC.push []]

/-- Claim C9, counterexample: with the dialog open for an entity absent from
the snapshot, the dialog's toggle button is not a no-op — clicking it issues
`switch.turn_on` for that entity (the missing state compares unequal to
`on`), contradicting the claim that no service call is issued until state
returns. -/
theorem stale_dialog_toggle_issues_call :
    lookupSnap [] "switch.port_1" = none ∧
      (createDialogB [] "switch.port_1").toggleCall =
        { domain := "switch", service := "turn_on", entity_id := "switch.port_1" } := by
  constructor
  · rfl
  · rfl

/-- Claim C9, amended: rendering with the dialog open for an entity `X`
absent from the snapshot is total and crash-free — the dialog title falls
back to the bare identifier `X`, the description field is empty, and the
toggle button reads Enable port — but the toggle is not disabled: clicking it
issues `switch.turn_on` for `X`. -/
theorem stale_dialog_fallback :
    ∀ (snap : Snapshot) (X : String), lookupSnap snap X = none →
      (createDialogB snap X).titleText = X
      ∧ (createDialogB snap X).toggleLabel = "Enable port"
      ∧ (createDialogB snap X).toggleCall =
          { domain := "switch", service := "turn_on", entity_id := X }
      ∧ (createDialogB snap X).descriptionValue = ""
      ∧ ∀ cfg : ConfigB, (renderFullB cfg snap (some X)).2 = some (createDialogB snap X) := by
  intro snap X h
  refine ⟨?_, ?_, ?_, ?_, fun _ => rfl⟩ <;>
    simp [createDialogB, h, jsOr, strTruthy]

/-- Claim C9, witness: the fallback title at a concrete snapshot lacking the
dialog's entity. -/
theorem stale_dialog_fallback_witness :
    (createDialogB [("switch.other", { state := "on", attributes := {} })]
      "switch.port_9").titleText = "switch.port_9" :=
  (stale_dialog_fallback [("switch.other", { state := "on", attributes := {} })]
    "switch.port_9" (by decide)).1

/-- Claim C10: variant C's direct click-toggle picks the service by a
case-insensitive comparison of the current state with `on` —
`switch.turn_off` exactly when the lowercased state equals `on`, and
`switch.turn_on` in every other case, including entities absent from the
snapshot. -/
theorem toggle_service_case_insensitive :
    ∀ (snap : Snapshot) (e : String),
      (toggleServiceC snap e).domain = "switch"
      ∧ (toggleServiceC snap e).entity_id = e
      ∧ ((toggleServiceC snap e).service = "turn_off" ↔
          ∃ st, lookupSnap snap e = some st ∧ toLowerStr st.state = "on")
      ∧ ((toggleServiceC snap e).service = "turn_on" ↔
          ¬∃ st, lookupSnap snap e = some st ∧ toLowerStr st.state = "on")
      ∧ (lookupSnap snap e = none → (toggleServiceC snap e).service = "turn_on") := by
  intro snap e
  cases h : lookupSnap snap e with
  | none =>
    have ht : toggleServiceC snap e =
        { domain := "switch", service := "turn_on", entity_id := e } := by
      simp [toggleServiceC, h]
      decide
    rw [ht]
    refine ⟨rfl, rfl, ?_, ?_, fun _ => rfl⟩
    · constructor
      · intro hcontra
        exact absurd hcontra (show ("turn_on" : String) ≠ "turn_off" by decide)
      · rintro ⟨st, hst, _⟩
        cases hst
    · constructor
      · rintro _ ⟨st, hst, _⟩
        cases hst
      · intro _
        rfl
  | some st =>
    cases hb : toLowerStr st.state == "on" with
    | true =>
      have hs : toLowerStr st.state = "on" := eq_of_beq hb
      have ht : toggleServiceC snap e =
          { domain := "switch", service := "turn_off", entity_id := e } := by
        simp [toggleServiceC, h, hb]
      rw [ht]
      refine ⟨rfl, rfl, ?_, ?_, fun hnone => ?_⟩
      · constructor
        · intro _
          exact ⟨st, rfl, hs⟩
        · intro _
          rfl
      · constructor
        · intro hcontra
          exact absurd hcontra (show ("turn_off" : String) ≠ "turn_on" by decide)
        · intro hne
          exact absurd ⟨st, rfl, hs⟩ hne
      · cases hnone
    | false =>
      have hs : ¬toLowerStr st.state = "on" := by
        intro hcontra
        simp [hcontra] at hb
      have ht : toggleServiceC snap e =
          { domain := "switch", service := "turn_on", entity_id := e } := by
        simp [toggleServiceC, h, hb]
      rw [ht]
      refine ⟨rfl, rfl, ?_, ?_, fun hnone => ?_⟩
      · constructor
        · intro hcontra
          exact absurd hcontra (show ("turn_on" : String) ≠ "turn_off" by decide)
        · rintro ⟨st2, hst2, hs2⟩
          cases hst2
          exact absurd hs2 hs
      · constructor
        · rintro _ ⟨st2, hst2, hs2⟩
          cases hst2
          exact absurd hs2 hs
        · intro _
          rfl
      · cases hnone

/-- Claim C10, witness: clicking a port with no snapshot entry issues a
turn-on command. -/
theorem toggle_service_case_insensitive_witness :
    (toggleServiceC [] "switch.port_1").service = "turn_on" :=
  (toggle_service_case_insensitive [] "switch.port_1").2.2.2.2 rfl

/-- An auto-discovery-variant configuration requesting image layout with a
background image and no ports (as after `setConfig` with only a device
name and an explicit image layout). -/
def cfgImageNoPorts : ConfigC :=
  { title := none, image := some "bg.png", layout := "image",
    marker_size := JSNum.fin 26, ports := [],
    device_id := none, device_name := some "SW1" }

/-- The same configuration with the defaulted grid layout. -/
def cfgGridNoPorts : ConfigC :=
  { title := none, image := none, layout := "grid",
    marker_size := JSNum.fin 26, ports := [],
    device_id := none, device_name := some "SW1" }

/-- A snapshot holding exactly `p1`, which is on. -/
def snapOn : Snapshot := [("p1", { state := "on", attributes := {} })]

/-- Claim C2, counterexample: with image layout and a background image
configured, an empty resolved-port list does not render the empty-state
message — the `every` guard is vacuously true on the empty list, so the
bare image container renders with zero markers. -/
theorem image_config_empty_ports_no_empty_state :
    resolveC cfgImageNoPorts.ports [] = [] ∧
      renderC cfgImageNoPorts [] = RenderC.imageView [] ∧
      hasEmptyMessageC (renderC cfgImageNoPorts []) = false := by
  decide

/-- Claim C2, amended: when the resolved port list of a render cycle is
empty, both variants render the explicit empty-state message, except when
the configured layout is image and a background image is configured — in
that case the image branch is taken vacuously and the image renders with no
markers and no empty-state message. -/
theorem empty_resolved_renders_empty_state :
    (∀ (cfg : ConfigC) (snap : Snapshot), resolveC cfg.ports snap = [] →
      (renderC cfg snap = RenderC.emptyView ∨ renderC cfg snap = RenderC.imageView [])
      ∧ (renderC cfg snap = RenderC.imageView [] ↔
          (jsOr (some cfg.layout) "grid" == "image" &&
            (nullifyFalsy cfg.image).isSome) = true))
    ∧ (∀ (cfg : ConfigB) (snap : Snapshot), resolveB cfg.ports snap = [] →
      (renderBodyB cfg snap = RenderB.emptyView ∨ renderBodyB cfg snap = RenderB.imageView [])
      ∧ (renderBodyB cfg snap = RenderB.imageView [] ↔
          (cfg.layout == "image" && strTruthy cfg.image) = true)) := by
  constructor
  · intro cfg snap h
    unfold renderC
    rw [h]
    by_cases hc : (jsOr (some cfg.layout) "grid" == "image" &&
        (nullifyFalsy cfg.image).isSome) = true
    · simp [hc]
    · simp [hc]
  · intro cfg snap h
    unfold renderBodyB
    rw [h]
    by_cases hc : (cfg.layout == "image" && strTruthy cfg.image) = true
    · simp [hc]
    · simp [hc]

/-- Claim C2, witness: a grid-layout configuration with nothing resolved
renders the empty state. -/
theorem empty_resolved_renders_empty_state_witness :
    renderC cfgGridNoPorts [] = RenderC.emptyView ∨
      renderC cfgGridNoPorts [] = RenderC.imageView [] :=
  (empty_resolved_renders_empty_state.1 cfgGridNoPorts [] (by decide)).1

/-- An entity whose state string is the uppercase variant `ON`. -/
def stON : EntityState := { state := "ON", attributes := {} }

/-- A grid-layout auto-discovery-variant configuration with one port. -/
def cfgOnePortGrid : ConfigC :=
  { title := none, image := none, layout := "grid",
    marker_size := JSNum.fin 26, ports := [{ entity := "p1" }],
    device_id := none, device_name := none }

/-- Claim C3, counterexample: in the auto-discovery variant cited by the
claim, the state `ON` is classified as on (case-insensitively), not as
unknown — its grid card shows the on state and a Turn Off button; that
variant has no unknown classification at all. -/
theorem uppercase_on_not_unknown :
    isOnC "ON" = true ∧
      renderC cfgOnePortGrid [("p1", stON)] = RenderC.gridView
        [{ entity := "p1", nameText := "p1", isOn := true, buttonLabel := "Turn Off",
           onClick := ClickAction.toggleEntity "p1" }] := by
  decide

/-- Claim C3, amended: variant B classifies three-way and case-sensitively —
`on` to on, `off` to off, everything else (including `ON`) to unknown — and
uses the same classification for image markers and grid tiles; the
auto-discovery variant instead classifies two-way and case-insensitively
(lowercased state equal to `on` versus everything else), also uniformly
across its two layouts. -/
theorem status_classification :
    (∀ s : String, (classifyB s = PortStatus.on ↔ s = "on")
      ∧ (classifyB s = PortStatus.off ↔ s = "off")
      ∧ (classifyB s = PortStatus.unknown ↔ s ≠ "on" ∧ s ≠ "off"))
    ∧ (∀ (cfg : ConfigB) (snap : Snapshot) (ms : List MarkerB),
        renderBodyB cfg snap = RenderB.imageView ms →
        ms.map MarkerB.status =
          (resolveB cfg.ports snap).map fun r => classifyB r.stateObj.state)
    ∧ (∀ (cfg : ConfigB) (snap : Snapshot) (b : Bool) (ts : List TileB),
        renderBodyB cfg snap = RenderB.gridView b ts →
        ts.map TileB.status =
          (resolveB cfg.ports snap).map fun r => classifyB r.stateObj.state)
    ∧ (∀ s : String, isOnC s = true ↔ toLowerStr s = "on")
    ∧ (∀ (cfg : ConfigC) (snap : Snapshot) (ms : List MarkerC),
        renderC cfg snap = RenderC.imageView ms →
        ms.map MarkerC.isOn = (resolveC cfg.ports snap).map fun r => isOnC r.st.state)
    ∧ (∀ (cfg : ConfigC) (snap : Snapshot) (cs : List PortCardC),
        renderC cfg snap = RenderC.gridView cs →
        cs.map PortCardC.isOn = (resolveC cfg.ports snap).map fun r => isOnC r.st.state) := by
  refine ⟨?_, ?_, ?_, ?_, ?_, ?_⟩
  · intro s
    unfold classifyB
    by_cases h1 : s = "on"
    · simp [h1]
    · by_cases h2 : s = "off"
      · simp [h1, h2]
      · simp [h1, h2]
  · intro cfg snap ms h
    unfold renderBodyB at h
    by_cases hc : (cfg.layout == "image" && strTruthy cfg.image &&
        (resolveB cfg.ports snap).all (fun p => isFiniteOpt p.x && isFiniteOpt p.y)) = true
    · rw [if_pos hc] at h
      injection h with h1
      rw [← h1, List.map_map]
      rfl
    · rw [if_neg hc] at h
      by_cases he : (!(resolveB cfg.ports snap).isEmpty) = true
      · rw [if_pos he] at h
        cases h
      · rw [if_neg he] at h
        cases h
  · intro cfg snap b ts h
    unfold renderBodyB at h
    by_cases hc : (cfg.layout == "image" && strTruthy cfg.image &&
        (resolveB cfg.ports snap).all (fun p => isFiniteOpt p.x && isFiniteOpt p.y)) = true
    · rw [if_pos hc] at h
      cases h
    · rw [if_neg hc] at h
      by_cases he : (!(resolveB cfg.ports snap).isEmpty) = true
      · rw [if_pos he] at h
        injection h with h1 h2
        rw [← h2, List.map_map]
        rfl
      · rw [if_neg he] at h
        cases h
  · intro s
    unfold isOnC
    exact beq_iff_eq
  · intro cfg snap ms h
    unfold renderC at h
    by_cases hc : (jsOr (some cfg.layout) "grid" == "image" &&
        (nullifyFalsy cfg.image).isSome &&
        (resolveC cfg.ports snap).all (fun p => p.x.isFinite && p.y.isFinite)) = true
    · rw [if_pos hc] at h
      injection h with h1
      rw [← h1, List.map_map]
      rfl
    · rw [if_neg hc] at h
      by_cases he : (resolveC cfg.ports snap).isEmpty = true
      · rw [if_pos he] at h
        cases h
      · rw [if_neg he] at h
        cases h
  · intro cfg snap cs h
    unfold renderC at h
    by_cases hc : (jsOr (some cfg.layout) "grid" == "image" &&
        (nullifyFalsy cfg.image).isSome &&
        (resolveC cfg.ports snap).all (fun p => p.x.isFinite && p.y.isFinite)) = true
    · rw [if_pos hc] at h
      cases h
    · rw [if_neg hc] at h
      by_cases he : (resolveC cfg.ports snap).isEmpty = true
      · rw [if_pos he] at h
        cases h
      · rw [if_neg he] at h
        injection h with h1
        rw [← h1, List.map_map]
        rfl

/-- Claim C3, witness: variant B classifies the uppercase `ON` as unknown. -/
theorem status_classification_witness :
    classifyB "ON" = PortStatus.unknown :=
  (status_classification.1 "ON").2.2.mpr ⟨by decide, by decide⟩

/-- An auto-discovery-variant configuration for image layout with one
positioned port. -/
def cfgOnePortImage : ConfigC :=
  { title := none, image := some "bg.png", layout := "image",
    marker_size := JSNum.fin 26,
    ports := [{ entity := "p1", x := some (JSNum.fin 10), y := some (JSNum.fin 20) }],
    device_id := none, device_name := none }

/-- Claim C4, counterexample: in the auto-discovery variant cited by the
claim, a single click on a rendered image marker does not open a dialog — it
directly issues a toggle service call (`switch.turn_off` here, since `p1` is
on). -/
theorem marker_click_issues_service_call :
    markersOfC (renderC cfgOnePortImage snapOn) =
      [{ entity := "p1", x := JSNum.fin 10, y := JSNum.fin 20, isOn := true,
         titleText := "p1", onClick := ClickAction.toggleEntity "p1" }] ∧
      clickServiceCall snapOn (ClickAction.toggleEntity "p1") =
        some { domain := "switch", service := "turn_off", entity_id := "p1" } := by
  decide

/-- Claim C4, amended: in variant B, every rendered port's click handler only
opens the dialog for that port's entity — it issues no service call and the
dialog state machine moves from its current state to open-for that entity; in
the auto-discovery variant, every rendered port's click handler directly
toggles that port, always issuing a service call. -/
theorem single_click_behaviour :
    (∀ (cfg : ConfigB) (snap : Snapshot),
      (∀ m ∈ markersOfB (renderBodyB cfg snap), m.onClick = ClickAction.openDialog m.entity)
      ∧ (∀ t ∈ tilesOfB (renderBodyB cfg snap), t.onClick = ClickAction.openDialog t.entity))
    ∧ (∀ (snap : Snapshot) (d : Option String) (e : String),
        clickServiceCall snap (ClickAction.openDialog e) = none
        ∧ clickDialogAfter d (ClickAction.openDialog e) = some e)
    ∧ (∀ (cfg : ConfigC) (snap : Snapshot),
      (∀ m ∈ markersOfC (renderC cfg snap), m.onClick = ClickAction.toggleEntity m.entity)
      ∧ (∀ pc ∈ cardsOfC (renderC cfg snap), pc.onClick = ClickAction.toggleEntity pc.entity))
    ∧ (∀ (snap : Snapshot) (e : String),
        (clickServiceCall snap (ClickAction.toggleEntity e)).isSome = true) := by
  refine ⟨?_, ?_, ?_, ?_⟩
  · intro cfg snap
    constructor
    · intro m hm
      unfold renderBodyB at hm
      by_cases hc : (cfg.layout == "image" && strTruthy cfg.image &&
          (resolveB cfg.ports snap).all (fun p => isFiniteOpt p.x && isFiniteOpt p.y)) = true
      · rw [if_pos hc] at hm
        simp only [markersOfB] at hm
        rcases List.mem_map.mp hm with ⟨r, hr, rfl⟩
        rfl
      · rw [if_neg hc] at hm
        by_cases he : (!(resolveB cfg.ports snap).isEmpty) = true
        · rw [if_pos he] at hm
          simp [markersOfB] at hm
        · rw [if_neg he] at hm
          simp [markersOfB] at hm
    · intro t ht
      unfold renderBodyB at ht
      by_cases hc : (cfg.layout == "image" && strTruthy cfg.image &&
          (resolveB cfg.ports snap).all (fun p => isFiniteOpt p.x && isFiniteOpt p.y)) = true
      · rw [if_pos hc] at ht
        simp [tilesOfB] at ht
      · rw [if_neg hc] at ht
        by_cases he : (!(resolveB cfg.ports snap).isEmpty) = true
        · rw [if_pos he] at ht
          simp only [tilesOfB] at ht
          rcases List.mem_map.mp ht with ⟨r, hr, rfl⟩
          rfl
        · rw [if_neg he] at ht
          simp [tilesOfB] at ht
  · intro snap d e
    exact ⟨rfl, rfl⟩
  · intro cfg snap
    constructor
    · intro m hm
      unfold renderC at hm
      by_cases hc : (jsOr (some cfg.layout) "grid" == "image" &&
          (nullifyFalsy cfg.image).isSome &&
          (resolveC cfg.ports snap).all (fun p => p.x.isFinite && p.y.isFinite)) = true
      · rw [if_pos hc] at hm
        simp only [markersOfC] at hm
        rcases List.mem_map.mp hm with ⟨r, hr, rfl⟩
        rfl
      · rw [if_neg hc] at hm
        by_cases he : (resolveC cfg.ports snap).isEmpty = true
        · rw [if_pos he] at hm
          simp [markersOfC] at hm
        · rw [if_neg he] at hm
          simp [markersOfC] at hm
    · intro pc hpc
      unfold renderC at hpc
      by_cases hc : (jsOr (some cfg.layout) "grid" == "image" &&
          (nullifyFalsy cfg.image).isSome &&
          (resolveC cfg.ports snap).all (fun p => p.x.isFinite && p.y.isFinite)) = true
      · rw [if_pos hc] at hpc
        simp [cardsOfC] at hpc
      · rw [if_neg hc] at hpc
        by_cases he : (resolveC cfg.ports snap).isEmpty = true
        · rw [if_pos he] at hpc
          simp [cardsOfC] at hpc
        · rw [if_neg he] at hpc
          simp only [cardsOfC] at hpc
          rcases List.mem_map.mp hpc with ⟨r, hr, rfl⟩
          rfl
  · intro snap e
    rfl

/-- Claim C4, witness: the concrete marker rendered for `p1` carries the
direct-toggle click action. -/
theorem single_click_behaviour_witness :
    ({ entity := "p1", x := JSNum.fin 10, y := JSNum.fin 20, isOn := true,
       titleText := "p1", onClick := ClickAction.toggleEntity "p1" } : MarkerC).onClick =
      ClickAction.toggleEntity "p1" :=
  (single_click_behaviour.2.2.1 cfgOnePortImage snapOn).1 _ (by decide)

/-- Claim C5: in both variants, the image layout is used exactly when the
configured layout is image, a background image is configured, and every
resolved port has finite numeric coordinates; and whenever some resolved
port lacks finite coordinates, the render falls back to the grid layout. -/
theorem image_layout_invariant :
    (∀ (cfg : ConfigC) (snap : Snapshot),
      ((∃ ms, renderC cfg snap = RenderC.imageView ms) ↔
        (jsOr (some cfg.layout) "grid" == "image" && (nullifyFalsy cfg.image).isSome &&
          (resolveC cfg.ports snap).all (fun p => p.x.isFinite && p.y.isFinite)) = true)
      ∧ (∀ p ∈ resolveC cfg.ports snap, (p.x.isFinite && p.y.isFinite) = false →
          ∃ cs, renderC cfg snap = RenderC.gridView cs))
    ∧ (∀ (cfg : ConfigB) (snap : Snapshot),
      ((∃ ms, renderBodyB cfg snap = RenderB.imageView ms) ↔
        (cfg.layout == "image" && strTruthy cfg.image &&
          (resolveB cfg.ports snap).all (fun p => isFiniteOpt p.x && isFiniteOpt p.y)) = true)
      ∧ (∀ p ∈ resolveB cfg.ports snap, (isFiniteOpt p.x && isFiniteOpt p.y) = false →
          ∃ b ts, renderBodyB cfg snap = RenderB.gridView b ts)) := by
  constructor
  · intro cfg snap
    constructor
    · constructor
      · rintro ⟨ms, hms⟩
        by_cases hc : (jsOr (some cfg.layout) "grid" == "image" &&
            (nullifyFalsy cfg.image).isSome &&
            (resolveC cfg.ports snap).all (fun p => p.x.isFinite && p.y.isFinite)) = true
        · exact hc
        · unfold renderC at hms
          rw [if_neg hc] at hms
          by_cases he : (resolveC cfg.ports snap).isEmpty = true
          · rw [if_pos he] at hms
            cases hms
          · rw [if_neg he] at hms
            cases hms
      · intro hc
        unfold renderC
        rw [if_pos hc]
        exact ⟨_, rfl⟩
    · intro p hp hfin
      have hall : ¬((resolveC cfg.ports snap).all
          (fun r => r.x.isFinite && r.y.isFinite) = true) := by
        intro hall
        have := List.all_eq_true.mp hall p hp
        rw [hfin] at this
        cases this
      have hcond : ¬((jsOr (some cfg.layout) "grid" == "image" &&
          (nullifyFalsy cfg.image).isSome &&
          (resolveC cfg.ports snap).all (fun r => r.x.isFinite && r.y.isFinite)) = true) := by
        intro hcond
        simp only [Bool.and_eq_true] at hcond
        exact hall hcond.2
      have hne : (resolveC cfg.ports snap).isEmpty = false := by
        cases hl : resolveC cfg.ports snap with
        | nil =>
          rw [hl] at hp
          cases hp
        | cons a l => rfl
      have hgrid : renderC cfg snap =
          RenderC.gridView ((resolveC cfg.ports snap).map mkPortCardC) := by
        unfold renderC
        rw [if_neg hcond, if_neg (by simp [hne])]
      exact ⟨_, hgrid⟩
  · intro cfg snap
    constructor
    · constructor
      · rintro ⟨ms, hms⟩
        by_cases hc : (cfg.layout == "image" && strTruthy cfg.image &&
            (resolveB cfg.ports snap).all
              (fun p => isFiniteOpt p.x && isFiniteOpt p.y)) = true
        · exact hc
        · unfold renderBodyB at hms
          rw [if_neg hc] at hms
          by_cases he : (!(resolveB cfg.ports snap).isEmpty) = true
          · rw [if_pos he] at hms
            cases hms
          · rw [if_neg he] at hms
            cases hms
      · intro hc
        unfold renderBodyB
        rw [if_pos hc]
        exact ⟨_, rfl⟩
    · intro p hp hfin
      have hall : ¬((resolveB cfg.ports snap).all
          (fun r => isFiniteOpt r.x && isFiniteOpt r.y) = true) := by
        intro hall
        have := List.all_eq_true.mp hall p hp
        rw [hfin] at this
        cases this
      have hcond : ¬((cfg.layout == "image" && strTruthy cfg.image &&
          (resolveB cfg.ports snap).all
            (fun r => isFiniteOpt r.x && isFiniteOpt r.y)) = true) := by
        intro hcond
        simp only [Bool.and_eq_true] at hcond
        exact hall hcond.2
      have hne : (resolveB cfg.ports snap).isEmpty = false := by
        cases hl : resolveB cfg.ports snap with
        | nil =>
          rw [hl] at hp
          cases hp
        | cons a l => rfl
      have hgrid : renderBodyB cfg snap = RenderB.gridView (strTruthy cfg.image)
          ((resolveB cfg.ports snap).map mkTileB) := by
        unfold renderBodyB
        rw [if_neg hcond, if_pos (by simp [hne])]
      exact ⟨_, _, hgrid⟩

/-- Claim C5, witness: a configuration requesting image layout whose single
resolved port lacks coordinates falls back to the grid. -/
theorem image_layout_invariant_witness :
    ∃ cs, renderC
      { title := none, image := some "bg.png", layout := "image",
        marker_size := JSNum.fin 26, ports := [{ entity := "p1" }],
        device_id := none, device_name := none } snapOn = RenderC.gridView cs :=
  (image_layout_invariant.1
    { title := none, image := some "bg.png", layout := "image",
      marker_size := JSNum.fin 26, ports := [{ entity := "p1" }],
      device_id := none, device_name := none } snapOn).2
    { id := "p1", st := { state := "on", attributes := {} }, x := JSNum.nan, y := JSNum.nan }
    (by decide) (by decide)

/-- Claim C6: the reconciler of each variant is a total function whose output
lists exactly the configured ports found in the snapshot, in input order (an
order-preserving subsequence), each carrying the live entity state; ports
absent from the snapshot never appear. -/
theorem reconciler_exact :
    (∀ (ports : List PortEntry) (snap : Snapshot),
      (resolveC ports snap).map ResolvedC.id =
        (ports.filter fun p => (lookupSnap snap p.entity).isSome).map PortEntry.entity
      ∧ (∀ r ∈ resolveC ports snap, lookupSnap snap r.id = some r.st)
      ∧ ((resolveC ports snap).map ResolvedC.id).Sublist (ports.map PortEntry.entity))
    ∧ (∀ (ports : List PortEntry) (snap : Snapshot),
      (resolveB ports snap).map ResolvedB.entity =
        (ports.filter fun p => (lookupSnap snap p.entity).isSome).map PortEntry.entity
      ∧ (∀ r ∈ resolveB ports snap, lookupSnap snap r.entity = some r.stateObj)
      ∧ ((resolveB ports snap).map ResolvedB.entity).Sublist (ports.map PortEntry.entity)) := by
  constructor
  · intro ports snap
    have h1 : (resolveC ports snap).map ResolvedC.id =
        (ports.filter fun p => (lookupSnap snap p.entity).isSome).map PortEntry.entity :=
      reconcile_ids
        (fun p st =>
          ({ id := p.entity, st := st, x := jsNumber p.x, y := jsNumber p.y } : ResolvedC))
        ResolvedC.id (fun p st => rfl) snap ports
    refine ⟨h1, ?_, ?_⟩
    · exact reconcile_state
        (fun p st => ({ id := p.entity, st := st, x := jsNumber p.x, y := jsNumber p.y } :
          ResolvedC))
        ResolvedC.id ResolvedC.st (fun p st => rfl) (fun p st => rfl) snap ports
    · rw [h1]
      exact (List.filter_sublist ports).map PortEntry.entity
  · intro ports snap
    have h1 : (resolveB ports snap).map ResolvedB.entity =
        (ports.filter fun p => (lookupSnap snap p.entity).isSome).map PortEntry.entity :=
      reconcile_ids
        (fun p st =>
          ({ entity := p.entity, x := p.x, y := p.y, label := p.label, stateObj := st } : ResolvedB))
        ResolvedB.entity (fun p st => rfl) snap ports
    refine ⟨h1, ?_, ?_⟩
    · exact reconcile_state
        (fun p st =>
          ({ entity := p.entity, x := p.x, y := p.y, label := p.label, stateObj := st } : ResolvedB))
        ResolvedB.entity ResolvedB.stateObj (fun p st => rfl) (fun p st => rfl) snap ports
    · rw [h1]
      exact (List.filter_sublist ports).map PortEntry.entity

/-- Claim C6, witness: the single resolved port of a concrete configuration
carries the snapshot's live state for its id. -/
theorem reconciler_exact_witness :
    lookupSnap snapOn "p1" = some { state := "on", attributes := {} } :=
  (reconciler_exact.1 [{ entity := "p1" }] snapOn).2.1
    { id := "p1", st := { state := "on", attributes := {} },
      x := JSNum.nan, y := JSNum.nan }
    (by decide)

/-- A discovery candidate with a finite numeric index attribute. -/
def candWithIndex (i : String) (q : ℚ) : Cand :=
  { id := i, st := { state := "on", attributes := { Index := some (JSNum.fin q) } } }

/-- A discovery candidate without an index attribute. -/
def candNoIndex (i : String) : Cand :=
  { id := i, st := { state := "on", attributes := {} } }

/-- Claim C7: the discovery comparator is the stated two-tier rule — when
both candidates carry a finite numeric index, order is by ascending index;
otherwise it is lexical by entity id.  On lists where all candidates carry a
finite index the sort returns an index-sorted permutation; on lists where
none does it returns an id-sorted permutation; the `[3,1,2]` example comes
out `[1,2,3]`, and the no-index example comes out lexically. -/
theorem discovery_ordering :
    (∀ (a b : Cand) (qa qb : ℚ), (candIndex a).finVal = some qa →
        (candIndex b).finVal = some qb → (sortLe a b ↔ qa ≤ qb))
    ∧ (∀ a b : Cand, (candIndex a).finVal = none ∨ (candIndex b).finVal = none →
        (sortLe a b ↔ a.id ≤ b.id))
    ∧ (∀ l : List Cand, (∀ c ∈ l, (candIndex c).isFinite = true) →
        (sortCands l).Sorted
          (fun a b => ((candIndex a).finVal).getD 0 ≤ ((candIndex b).finVal).getD 0)
        ∧ List.Perm (sortCands l) l)
    ∧ (∀ l : List Cand, (∀ c ∈ l, (candIndex c).finVal = none) →
        (sortCands l).Sorted (fun a b => a.id ≤ b.id)
        ∧ List.Perm (sortCands l) l)
    ∧ (sortCands [candWithIndex "a" 3, candWithIndex "b" 1, candWithIndex "c" 2]).map
        Cand.id = ["b", "c", "a"]
    ∧ (sortCands [candNoIndex "z", candNoIndex "m", candNoIndex "a"]).map
        Cand.id = ["a", "m", "z"] := by
  refine ⟨?_, ?_, ?_, ?_, ?_, ?_⟩
  · intro a b qa qb ha hb
    exact sortLe_iff_num ha hb
  · intro a b h
    exact sortLe_iff_str h
  · intro l hl
    constructor
    · unfold sortCands
      apply sorted_insertionSort_key sortLe
        (fun c => ((candIndex c).finVal).getD 0)
      intro a ha b hb
      rcases JSNum.isFinite_iff.mp (hl a ha) with ⟨qa, hqa⟩
      rcases JSNum.isFinite_iff.mp (hl b hb) with ⟨qb, hqb⟩
      rw [hqa, hqb]
      simp only [Option.getD_some]
      exact sortLe_iff_num hqa hqb
    · exact List.perm_insertionSort sortLe l
  · intro l hl
    constructor
    · unfold sortCands
      apply sorted_insertionSort_key sortLe (fun c => c.id)
      intro a ha b hb
      exact sortLe_iff_str (Or.inl (hl a ha))
    · exact List.perm_insertionSort sortLe l
  · decide
  · decide

/-- Claim C7, witness: the all-finite-index example is sorted by index. -/
theorem discovery_ordering_witness :
    (sortCands [candWithIndex "a" 3, candWithIndex "b" 1, candWithIndex "c" 2]).Sorted
      (fun a b => ((candIndex a).finVal).getD 0 ≤ ((candIndex b).finVal).getD 0) :=
  (discovery_ordering.2.2.1
    [candWithIndex "a" 3, candWithIndex "b" 1, candWithIndex "c" 2] (by decide)).1

end SwitchCard
